import Mathlib

/-!
# DGT directed semantic macros and the ecosystem demo

A shallow embedding of `include/dgt/dgt_semantic.h` (the macro layer),
`src/ecosystem.c` (the two functors and their bindings) and `src/main.c`
(the two-step demo pipeline), followed by the properties proved about them.

Conventions of the embedding

* `void*` is an address, a natural number, with `NULL = 0`.
* `int` is the 32-bit two's complement integer: a mathematical integer kept
  inside `[INT_MIN, INT_MAX]`, arithmetic being reduced modulo `2^32`.
* The process is passed around explicitly: the object the state handle points
  to, and the text written so far to `stdout` and to `stderr`.
* A macro that pastes or stringifies a token takes the spelling of that token
  as a `String`; the identifier that `name##_in` spells is looked up among the
  functions declared in the translation unit.
-/

namespace DGT

/-! ## Machine integers and pointers -/

/-- Smallest value of a 32-bit `int`. -/
def INT_MIN : Int := -2147483648

/-- Largest value of a 32-bit `int`. -/
def INT_MAX : Int := 2147483647

/-- The C type `int`: an integer inside `[INT_MIN, INT_MAX]`. -/
abbrev CInt := {x : Int // -2147483648 ≤ x ∧ x ≤ 2147483647}

/-- Reduction of a mathematical integer to the `int` congruent to it modulo `2^32`. -/
def CInt.wrap (x : Int) : CInt :=
  ⟨(x + 2147483648) % 4294967296 - 2147483648, by omega⟩

/-- The `int` addition `a + b`. -/
def CInt.add (a b : CInt) : CInt := CInt.wrap (a.val + b.val)

/-- The `int` subtraction `a - b`. -/
def CInt.sub (a b : CInt) : CInt := CInt.wrap (a.val - b.val)

/-- The text `printf` produces for `%d`. -/
def CInt.fmt (a : CInt) : String := toString a.val

/-- The C type `void*`: an address. -/
abbrev Ptr := Nat

/-- The null pointer. -/
def NULL : Ptr := 0

/-- Exit status of `exit(EXIT_FAILURE)`. -/
def EXIT_FAILURE : Nat := 1

/-! ## The process -/

/-- Process state: the object behind the state handle and both output streams. -/
structure Proc (μ : Type) where
  mem : μ
  stdout : String
  stderr : String
deriving DecidableEq

/-- Where control is after a piece of code ran: still running, with the value
of the caller's state variable, or terminated with an exit status. -/
inductive Outcome (μ : Type) where
  | next (state : Ptr) (p : Proc μ)
  | exited (status : Nat) (p : Proc μ)
deriving DecidableEq

/-! ## dgt_semantic.h -/

/-- Direction tag `__DGT_IN__` (interior → exterior). -/
def __DGT_IN__ : Nat := 0x01

/-- Direction tag `__DGT_OUT__` (exterior → interior). -/
def __DGT_OUT__ : Nat := 0x02

/-- The functor type `void* (*)(void* state)`: the returned pointer and the
process after the call. -/
abbrev dgt_functor_t (μ : Type) := Ptr → Proc μ → Ptr × Proc μ

/-- The text of `fprintf(stderr, "[DGT %s] %s failed → %s\n", ...)` in `DGT_INVOKE`. -/
def diagnostic (dir : Nat) (fnText : String) (msg : String) : String :=
  "[DGT " ++ (if dir = __DGT_IN__ then "IN" else "OUT") ++ "] " ++ fnText
    ++ " failed → " ++ msg ++ "\n"

/-- The macro `DGT_INVOKE(dir, fn, state, on_err)`. `fnText` is the spelling
`#fn`; `on_err` is `none` for a null pointer. -/
def DGT_INVOKE {μ : Type} (dir : Nat) (fnText : String) (fn : dgt_functor_t μ)
    (state : Ptr) (on_err : Option String) (p : Proc μ) : Outcome μ :=
  let r := fn state p
  let __res := r.1
  let p1 := r.2
  match decide (__res = NULL), on_err with
  | true, some msg =>
    Outcome.exited EXIT_FAILURE
      { p1 with stderr := p1.stderr ++ diagnostic dir fnText msg }
  | _, _ => Outcome.next __res p1

/-- A function declared at file scope: its identifier and its body. -/
structure Decl (μ : Type) where
  ident : String
  body : dgt_functor_t μ

/-- The macro `DGT_IN_BIND(name, functor)`: declares `name##_in`. -/
def DGT_IN_BIND {μ : Type} (name : String) (functor : dgt_functor_t μ) : Decl μ :=
  { ident := name ++ "_in", body := fun __s p => functor __s p }

/-- The macro `DGT_OUT_BIND(name, functor)`: declares `name##_out`. -/
def DGT_OUT_BIND {μ : Type} (name : String) (functor : dgt_functor_t μ) : Decl μ :=
  { ident := name ++ "_out", body := fun __s p => functor __s p }

/-- Resolution of an identifier among the declared functions. -/
def resolve {μ : Type} (decls : List (Decl μ)) (ident : String) : Option (dgt_functor_t μ) :=
  match decls with
  | [] => none
  | d :: ds => if d.ident = ident then some d.body else resolve ds ident

/-- The macro `DGT_IN_CALL(name, state, on_err)`; `none` when `name##_in`
names no declared function (the program does not compile). -/
def DGT_IN_CALL {μ : Type} (decls : List (Decl μ)) (name : String) (state : Ptr)
    (on_err : Option String) (p : Proc μ) : Option (Outcome μ) :=
  match resolve decls (name ++ "_in") with
  | none => none
  | some fn => some (DGT_INVOKE __DGT_IN__ (name ++ "_in") fn state on_err p)

/-- The macro `DGT_OUT_CALL(name, state, on_err)`; `none` when `name##_out`
names no declared function. -/
def DGT_OUT_CALL {μ : Type} (decls : List (Decl μ)) (name : String) (state : Ptr)
    (on_err : Option String) (p : Proc μ) : Option (Outcome μ) :=
  match resolve decls (name ++ "_out") with
  | none => none
  | some fn => some (DGT_INVOKE __DGT_OUT__ (name ++ "_out") fn state on_err p)

/-! ## ecosystem.c -/

/-- The struct `Ecosystem`. -/
structure Ecosystem where
  name : String
  carbon : CInt
  oxygen : CInt
deriving DecidableEq

/-- The functor `compress_ecosystem`; `p.mem` is the object `s` points to. -/
def compress_ecosystem : dgt_functor_t Ecosystem := fun s p =>
  let e := p.mem
  if 10 ≤ e.carbon.val then
    let e1 : Ecosystem := { e with carbon := CInt.sub e.carbon (CInt.wrap 10) }
    let line := "[IN]  compress: carbon " ++ (CInt.add e1.carbon (CInt.wrap 10)).fmt
      ++ " → " ++ e1.carbon.fmt ++ "\n"
    (s, { p with mem := e1, stdout := p.stdout ++ line })
  else
    (NULL, p)

/-- The functor `release_oxygen`; `p.mem` is the object `s` points to. -/
def release_oxygen : dgt_functor_t Ecosystem := fun s p =>
  let e := p.mem
  let e1 : Ecosystem := { e with oxygen := CInt.add e.oxygen (CInt.wrap 5) }
  let line := "[OUT] release: oxygen → " ++ e1.oxygen.fmt ++ "\n"
  (s, { p with mem := e1, stdout := p.stdout ++ line })

/-- The functions declared at file scope in `ecosystem.c`, the two bindings
at its end included. -/
def bindings : List (Decl Ecosystem) :=
  [ { ident := "compress_ecosystem", body := compress_ecosystem },
    { ident := "release_oxygen", body := release_oxygen },
    DGT_IN_BIND "compress" compress_ecosystem,
    DGT_OUT_BIND "oxygen" release_oxygen ]

/-! ## main.c -/

/-- The two macro calls of `main`, run on the handle `world`. -/
def pipeline (world : Ptr) (p : Proc Ecosystem) : Option (Outcome Ecosystem) :=
  match DGT_IN_CALL bindings "compress" world
      (some "compression step failed – not enough carbon") p with
  | none => none
  | some (Outcome.exited status p1) => some (Outcome.exited status p1)
  | some (Outcome.next world1 p1) =>
    DGT_OUT_CALL bindings "oxygen" world1 (some "oxygen step failed – cycle broken") p1

/-- The statements of `main` that follow the initialisation of the state:
the banner, the two calls, the final line, `free` and `return 0`. -/
def main_body (world : Ptr) (p : Proc Ecosystem) : Option (Outcome Ecosystem) :=
  let p0 := { p with stdout := p.stdout ++ "=== Di-RAM Directed Semantic Demo ===\n" }
  match pipeline world p0 with
  | none => none
  | some (Outcome.exited status p1) => some (Outcome.exited status p1)
  | some (Outcome.next _ p2) =>
    let e := p2.mem
    let line := "Final state: " ++ e.name ++ " | C:" ++ e.carbon.fmt ++ " O:" ++ e.oxygen.fmt ++ "\n"
    some (Outcome.exited 0 { p2 with stdout := p2.stdout ++ line })

/-- The program `main`; `world` is the address `malloc` returned. -/
def main (world : Ptr) : Option (Outcome Ecosystem) :=
  main_body world
    { mem := { name := "Earth-v1", carbon := CInt.wrap 50, oxygen := CInt.wrap 0 },
      stdout := "", stderr := "" }

/-! ## Callers of the functors

The repository calls each functor once, from `main`. The carbon-counter property
speaks of arbitrary sequences of calls and of a caller that repeats
`compress_ecosystem` until it fails; these callers are written here, on top of
the functors above. -/

/-- One call made on the state handle. -/
inductive Call where
  | compress
  | release
deriving DecidableEq

/-- The process after one call on the handle `s`, whatever the call returned. -/
def after_call (s : Ptr) (p : Proc Ecosystem) : Call → Proc Ecosystem
  | Call.compress => (compress_ecosystem s p).2
  | Call.release => (release_oxygen s p).2

/-- The process after a sequence of calls on the handle `s`, first call first. -/
def after_calls (s : Ptr) (p : Proc Ecosystem) : List Call → Proc Ecosystem
  | [] => p
  | c :: cs => after_calls s (after_call s p c) cs

/-- A caller that repeats `compress_ecosystem` on the handle `s` until a call
returns `NULL`, making at most `fuel` calls: the number of calls that succeeded,
the process at the end, and whether the failing call was reached. -/
def compress_until_failure (s : Ptr) : Nat → Proc Ecosystem → Nat × Proc Ecosystem × Bool
  | 0, p => (0, p, false)
  | fuel + 1, p =>
    let r := compress_ecosystem s p
    if r.1 = NULL then (0, r.2, true)
    else
      let t := compress_until_failure s fuel r.2
      (t.1 + 1, t.2.1, t.2.2)

/-! ## States used as concrete inputs -/

/-- A process whose ecosystem holds the given counters and has written nothing. -/
def boot (carbon oxygen : Int) : Proc Ecosystem :=
  { mem := { name := "Earth-v1", carbon := CInt.wrap carbon, oxygen := CInt.wrap oxygen },
    stdout := "", stderr := "" }

/-! ## Facts about `int` arithmetic -/

theorem CInt.wrap_val (x : Int) (h1 : -2147483648 ≤ x) (h2 : x ≤ 2147483647) :
    (CInt.wrap x).val = x := by
  simp only [CInt.wrap]
  omega

theorem CInt.sub_ten_val (a : CInt) (h : 10 ≤ a.val) :
    (CInt.sub a (CInt.wrap 10)).val = a.val - 10 := by
  have h2 := a.property.2
  simp only [CInt.sub, CInt.wrap]
  omega

theorem CInt.add_five_val (a : CInt) (h : a.val ≤ 2147483642) :
    (CInt.add a (CInt.wrap 5)).val = a.val + 5 := by
  have h1 := a.property.1
  simp only [CInt.add, CInt.wrap]
  omega

/-! ## Shared lemmas -/

theorem compress_null_of_lt (s : Ptr) (p : Proc Ecosystem)
    (h : p.mem.carbon.val < 10) : compress_ecosystem s p = (NULL, p) := by
  have h1 : ¬ 10 ≤ p.mem.carbon.val := by omega
  simp [compress_ecosystem, h1]

theorem invoke_exits_of_null {μ : Type} (dir : Nat) (fnText : String)
    (fn : dgt_functor_t μ) (state : Ptr) (msg : String) (p : Proc μ)
    (h : (fn state p).1 = NULL) :
    DGT_INVOKE dir fnText fn state (some msg) p
      = Outcome.exited EXIT_FAILURE
          { (fn state p).2 with
            stderr := (fn state p).2.stderr ++ diagnostic dir fnText msg } := by
  simp [DGT_INVOKE, h]

theorem invoke_next_of_ne {μ : Type} (dir : Nat) (fnText : String)
    (fn : dgt_functor_t μ) (state : Ptr) (on_err : Option String) (p : Proc μ)
    (h : (fn state p).1 ≠ NULL) :
    DGT_INVOKE dir fnText fn state on_err p = Outcome.next (fn state p).1 (fn state p).2 := by
  cases on_err <;> simp [DGT_INVOKE, h]

/-! ## The functors -/

/-- C1: for a state handle `s` (non-null) `compress_ecosystem` returns a non-null
pointer exactly when `carbon >= 10`; in that case it returns `s` itself, the new
carbon is the old one minus 10 as a mathematical integer, and oxygen and name
are unchanged. -/
theorem compress_ecosystem_contract (s : Ptr) (p : Proc Ecosystem) (hs : s ≠ NULL) :
    ((compress_ecosystem s p).1 ≠ NULL ↔ 10 ≤ p.mem.carbon.val) ∧
    (10 ≤ p.mem.carbon.val →
      (compress_ecosystem s p).1 = s ∧
      (compress_ecosystem s p).2.mem.carbon.val = p.mem.carbon.val - 10 ∧
      (compress_ecosystem s p).2.mem.oxygen = p.mem.oxygen ∧
      (compress_ecosystem s p).2.mem.name = p.mem.name) := by
  constructor
  · by_cases h : 10 ≤ p.mem.carbon.val
    · simp [compress_ecosystem, h, hs]
    · simp [compress_ecosystem, h]
  · intro h
    simp only [compress_ecosystem, h, if_true]
    exact ⟨trivial, CInt.sub_ten_val _ h, trivial, trivial⟩

/-- Witness for C1 at the handle `4096` and the state `{carbon: 50, oxygen: 0}`. -/
theorem compress_ecosystem_contract_witness :
    (4096 : Ptr) ≠ NULL ∧ 10 ≤ (boot 50 0).mem.carbon.val ∧
    ((compress_ecosystem 4096 (boot 50 0)).1 ≠ NULL ↔ 10 ≤ (boot 50 0).mem.carbon.val) ∧
    ((compress_ecosystem 4096 (boot 50 0)).1 = 4096 ∧
      (compress_ecosystem 4096 (boot 50 0)).2.mem.carbon.val = (boot 50 0).mem.carbon.val - 10 ∧
      (compress_ecosystem 4096 (boot 50 0)).2.mem.oxygen = (boot 50 0).mem.oxygen ∧
      (compress_ecosystem 4096 (boot 50 0)).2.mem.name = (boot 50 0).mem.name) :=
  ⟨by decide, by decide,
   (compress_ecosystem_contract 4096 (boot 50 0) (by decide)).1,
   (compress_ecosystem_contract 4096 (boot 50 0) (by decide)).2 (by decide)⟩

/-- C2: when `carbon < 10`, `compress_ecosystem` returns `NULL` and the process
(name, carbon, oxygen and both streams) is exactly as before the call. -/
theorem compress_ecosystem_failure (s : Ptr) (p : Proc Ecosystem)
    (h : p.mem.carbon.val < 10) :
    compress_ecosystem s p = (NULL, p) :=
  compress_null_of_lt s p h

/-- Witness for C2 at the state `{carbon: 5, oxygen: 0}`. -/
theorem compress_ecosystem_failure_witness :
    (boot 5 0).mem.carbon.val < 10 ∧
    compress_ecosystem 4096 (boot 5 0) = (NULL, boot 5 0) :=
  ⟨by decide, compress_ecosystem_failure 4096 (boot 5 0) (by decide)⟩

/-- C3, as stated, fails: with `oxygen = INT_MAX` the `int` field cannot hold
`oxygen + 5`; the stored value is `INT_MAX + 5 - 2^32`. -/
theorem release_oxygen_overflow :
    (boot 0 2147483647).mem.oxygen.val = INT_MAX ∧
    (release_oxygen 4096 (boot 0 2147483647)).2.mem.oxygen.val = -2147483644 ∧
    (release_oxygen 4096 (boot 0 2147483647)).2.mem.oxygen.val
      ≠ (boot 0 2147483647).mem.oxygen.val + 5 := by
  decide

/-- C3, amended: for a state handle `s` (non-null) `release_oxygen` returns `s`
itself, hence never `NULL`, and leaves carbon and name unchanged; when
`oxygen <= INT_MAX - 5` the new oxygen is the old one plus 5. -/
theorem release_oxygen_contract (s : Ptr) (p : Proc Ecosystem) (hs : s ≠ NULL) :
    (release_oxygen s p).1 = s ∧
    (release_oxygen s p).1 ≠ NULL ∧
    (release_oxygen s p).2.mem.carbon = p.mem.carbon ∧
    (release_oxygen s p).2.mem.name = p.mem.name ∧
    (p.mem.oxygen.val ≤ INT_MAX - 5 →
      (release_oxygen s p).2.mem.oxygen.val = p.mem.oxygen.val + 5) := by
  refine ⟨rfl, hs, rfl, rfl, ?_⟩
  intro h
  simp only [INT_MAX] at h
  exact CInt.add_five_val _ (by omega)

/-- Witness for C3 (amended) at the handle `4096` and the state `{carbon: 50, oxygen: 0}`. -/
theorem release_oxygen_contract_witness :
    (4096 : Ptr) ≠ NULL ∧ (boot 50 0).mem.oxygen.val ≤ INT_MAX - 5 ∧
    (release_oxygen 4096 (boot 50 0)).1 = 4096 ∧
    (release_oxygen 4096 (boot 50 0)).1 ≠ NULL ∧
    (release_oxygen 4096 (boot 50 0)).2.mem.carbon = (boot 50 0).mem.carbon ∧
    (release_oxygen 4096 (boot 50 0)).2.mem.name = (boot 50 0).mem.name ∧
    (release_oxygen 4096 (boot 50 0)).2.mem.oxygen.val = (boot 50 0).mem.oxygen.val + 5 :=
  ⟨by decide, by decide,
   (release_oxygen_contract 4096 (boot 50 0) (by decide)).1,
   (release_oxygen_contract 4096 (boot 50 0) (by decide)).2.1,
   (release_oxygen_contract 4096 (boot 50 0) (by decide)).2.2.1,
   (release_oxygen_contract 4096 (boot 50 0) (by decide)).2.2.2.1,
   (release_oxygen_contract 4096 (boot 50 0) (by decide)).2.2.2.2 (by decide)⟩

/-! ## DGT_INVOKE -/

/-- C5: the header promises "fail-safe, not silent" error reporting, yet at a null
`on_err` the null result of `compress_ecosystem` on `{carbon: 5, oxygen: 0}` is not
treated as a failure: `DGT_INVOKE` writes nothing to `stderr`, the process goes
on, and the state variable, which held `4096`, now holds `NULL`. -/
theorem DGT_INVOKE_null_on_err_silent :
    (compress_ecosystem 4096 (boot 5 0)).1 = NULL ∧
    DGT_INVOKE __DGT_IN__ "compress_in" compress_ecosystem 4096 none (boot 5 0)
      = Outcome.next NULL (boot 5 0) := by
  decide

/-- The sibling path of `DGT_INVOKE`: for every functor, state and non-null
`on_err`, a null result makes it append the diagnostic to `stderr` and terminate
the process with `EXIT_FAILURE`, the state variable not being assigned; hence,
under a non-null `on_err`, whenever `DGT_INVOKE` goes on the state variable is
not null. -/
theorem DGT_INVOKE_abort {μ : Type} (dir : Nat) (fnText : String) (fn : dgt_functor_t μ)
    (state : Ptr) (msg : String) (p : Proc μ) :
    ((fn state p).1 = NULL →
      DGT_INVOKE dir fnText fn state (some msg) p
        = Outcome.exited EXIT_FAILURE
            { (fn state p).2 with
              stderr := (fn state p).2.stderr ++ diagnostic dir fnText msg }) ∧
    (∀ (st : Ptr) (q : Proc μ),
      DGT_INVOKE dir fnText fn state (some msg) p = Outcome.next st q → st ≠ NULL) := by
  constructor
  · intro h
    exact invoke_exits_of_null dir fnText fn state msg p h
  · intro st q h hst
    by_cases hn : (fn state p).1 = NULL
    · rw [invoke_exits_of_null dir fnText fn state msg p hn] at h
      cases h
    · rw [invoke_next_of_ne dir fnText fn state (some msg) p hn] at h
      cases h
      exact hn hst

/-- The sibling path at concrete inputs: `compress_ecosystem` on
`{carbon: 5, oxygen: 0}` for the abort, `release_oxygen` on `{carbon: 50, oxygen: 0}`
for the other branch. -/
theorem DGT_INVOKE_abort_witness :
    ((compress_ecosystem 4096 (boot 5 0)).1 = NULL ∧
      DGT_INVOKE __DGT_IN__ "compress_in" compress_ecosystem 4096 (some "no carbon") (boot 5 0)
        = Outcome.exited EXIT_FAILURE
            { (compress_ecosystem 4096 (boot 5 0)).2 with
              stderr := (compress_ecosystem 4096 (boot 5 0)).2.stderr
                ++ diagnostic __DGT_IN__ "compress_in" "no carbon" }) ∧
    (DGT_INVOKE __DGT_OUT__ "oxygen_out" release_oxygen 4096 (some "cycle broken") (boot 50 0)
        = Outcome.next 4096 (release_oxygen 4096 (boot 50 0)).2 ∧
      (4096 : Ptr) ≠ NULL) :=
  ⟨⟨by decide,
    (DGT_INVOKE_abort __DGT_IN__ "compress_in" compress_ecosystem 4096 "no carbon"
      (boot 5 0)).1 (by decide)⟩,
   ⟨by decide,
    (DGT_INVOKE_abort __DGT_OUT__ "oxygen_out" release_oxygen 4096 "cycle broken"
      (boot 50 0)).2 4096 (release_oxygen 4096 (boot 50 0)).2 (by decide)⟩⟩

/-- C9: when the functor returns a non-null pointer, `DGT_INVOKE` does not abort,
for any `on_err`: the process is the one the functor left (its `stderr`
included) and the state variable holds the returned pointer. -/
theorem DGT_INVOKE_success {μ : Type} (dir : Nat) (fnText : String) (fn : dgt_functor_t μ)
    (state : Ptr) (on_err : Option String) (p : Proc μ) (h : (fn state p).1 ≠ NULL) :
    DGT_INVOKE dir fnText fn state on_err p = Outcome.next (fn state p).1 (fn state p).2 := by
  cases on_err <;> simp [DGT_INVOKE, h]

/-- Witness for C9 with `release_oxygen` on `{carbon: 50, oxygen: 0}`. -/
theorem DGT_INVOKE_success_witness :
    (release_oxygen 4096 (boot 50 0)).1 ≠ NULL ∧
    DGT_INVOKE __DGT_OUT__ "oxygen_out" release_oxygen 4096 (some "cycle broken") (boot 50 0)
      = Outcome.next (release_oxygen 4096 (boot 50 0)).1 (release_oxygen 4096 (boot 50 0)).2 :=
  ⟨by decide,
   DGT_INVOKE_success __DGT_OUT__ "oxygen_out" release_oxygen 4096 (some "cycle broken")
     (boot 50 0) (by decide)⟩

/-! ## Bindings and calls -/

theorem resolve_compress_in : resolve bindings "compress_in" = some compress_ecosystem := rfl

theorem resolve_oxygen_out : resolve bindings "oxygen_out" = some release_oxygen := rfl

theorem IN_CALL_compress (state : Ptr) (on_err : Option String) (p : Proc Ecosystem) :
    DGT_IN_CALL bindings "compress" state on_err p
      = some (DGT_INVOKE __DGT_IN__ "compress_in" compress_ecosystem state on_err p) := rfl

theorem OUT_CALL_oxygen (state : Ptr) (on_err : Option String) (p : Proc Ecosystem) :
    DGT_OUT_CALL bindings "oxygen" state on_err p
      = some (DGT_INVOKE __DGT_OUT__ "oxygen_out" release_oxygen state on_err p) := rfl

theorem diagnostic_in (fnText msg : String) :
    diagnostic __DGT_IN__ fnText msg = "[DGT IN] " ++ fnText ++ " failed → " ++ msg ++ "\n" := rfl

theorem diagnostic_out (fnText msg : String) :
    diagnostic __DGT_OUT__ fnText msg = "[DGT OUT] " ++ fnText ++ " failed → " ++ msg ++ "\n" := rfl

theorem invoke_exited_inv {μ : Type} (dir : Nat) (fnText : String) (fn : dgt_functor_t μ)
    (state : Ptr) (on_err : Option String) (p : Proc μ) (status : Nat) (q : Proc μ)
    (h : DGT_INVOKE dir fnText fn state on_err p = Outcome.exited status q) :
    ∃ msg, on_err = some msg ∧ (fn state p).1 = NULL ∧ status = EXIT_FAILURE ∧
      q = { (fn state p).2 with stderr := (fn state p).2.stderr ++ diagnostic dir fnText msg } := by
  cases on_err with
  | none => simp [DGT_INVOKE] at h
  | some msg =>
    by_cases hn : (fn state p).1 = NULL
    · simp [DGT_INVOKE, hn] at h
      exact ⟨msg, rfl, hn, h.1.symm, h.2.symm⟩
    · simp [DGT_INVOKE, hn] at h

/-- C6, as stated, fails: the text `DGT_IN_CALL(compress, ...)` writes on its abort
path starts with `[DGT IN]`, names the generated wrapper `compress_in` and ends
with a newline. -/
theorem IN_CALL_diagnostic_not_as_stated :
    DGT_IN_CALL bindings "compress" 4096 (some "not enough carbon") (boot 5 0)
      = some (Outcome.exited EXIT_FAILURE
          { boot 5 0 with stderr := "[DGT IN] compress_in failed → not enough carbon\n" }) ∧
    "[DGT IN] compress_in failed → not enough carbon\n"
      ≠ "[IN] compress failed → not enough carbon" := by
  decide

/-- C6, amended: whenever `DGT_IN_CALL(name, state, msg)` takes the abort path, the
text appended to `stderr` is exactly `[DGT IN] <name>_in failed → <msg>` followed
by a newline; for `DGT_OUT_CALL` it is `[DGT OUT] <name>_out failed → <msg>`
followed by a newline. -/
theorem CALL_diagnostic_text {μ : Type} (decls : List (Decl μ)) (name : String) (state : Ptr)
    (on_err : Option String) (p : Proc μ) (status : Nat) (q : Proc μ) :
    (DGT_IN_CALL decls name state on_err p = some (Outcome.exited status q) →
      ∃ fn msg, resolve decls (name ++ "_in") = some fn ∧ on_err = some msg ∧
        q.stderr = (fn state p).2.stderr
          ++ ("[DGT IN] " ++ (name ++ "_in") ++ " failed → " ++ msg ++ "\n")) ∧
    (DGT_OUT_CALL decls name state on_err p = some (Outcome.exited status q) →
      ∃ fn msg, resolve decls (name ++ "_out") = some fn ∧ on_err = some msg ∧
        q.stderr = (fn state p).2.stderr
          ++ ("[DGT OUT] " ++ (name ++ "_out") ++ " failed → " ++ msg ++ "\n")) := by
  constructor
  · intro h
    unfold DGT_IN_CALL at h
    cases hr : resolve decls (name ++ "_in") with
    | none => simp [hr] at h
    | some fn =>
      simp only [hr, Option.some.injEq] at h
      obtain ⟨msg, h1, _, _, h4⟩ := invoke_exited_inv _ _ _ _ _ _ _ _ h
      exact ⟨fn, msg, rfl, h1, by rw [h4, diagnostic_in]⟩
  · intro h
    unfold DGT_OUT_CALL at h
    cases hr : resolve decls (name ++ "_out") with
    | none => simp [hr] at h
    | some fn =>
      simp only [hr, Option.some.injEq] at h
      obtain ⟨msg, h1, _, _, h4⟩ := invoke_exited_inv _ _ _ _ _ _ _ _ h
      exact ⟨fn, msg, rfl, h1, by rw [h4, diagnostic_out]⟩

/-- Witness for C6 (amended): `compress` bound as an IN step and as an OUT step,
called on `{carbon: 5, oxygen: 0}`. -/
theorem CALL_diagnostic_text_witness :
    (DGT_IN_CALL bindings "compress" 4096 (some "not enough carbon") (boot 5 0)
      = some (Outcome.exited EXIT_FAILURE
          { boot 5 0 with stderr := "[DGT IN] compress_in failed → not enough carbon\n" }) ∧
    ∃ fn msg, resolve bindings ("compress" ++ "_in") = some fn ∧
      some "not enough carbon" = some msg ∧
      ({ boot 5 0 with stderr := "[DGT IN] compress_in failed → not enough carbon\n" }
          : Proc Ecosystem).stderr
        = (fn 4096 (boot 5 0)).2.stderr
          ++ ("[DGT IN] " ++ ("compress" ++ "_in") ++ " failed → " ++ msg ++ "\n")) ∧
    (DGT_OUT_CALL [DGT_OUT_BIND "compress" compress_ecosystem] "compress" 4096
        (some "not enough carbon") (boot 5 0)
      = some (Outcome.exited EXIT_FAILURE
          { boot 5 0 with stderr := "[DGT OUT] compress_out failed → not enough carbon\n" }) ∧
    ∃ fn msg, resolve [DGT_OUT_BIND "compress" compress_ecosystem] ("compress" ++ "_out")
        = some fn ∧
      some "not enough carbon" = some msg ∧
      ({ boot 5 0 with stderr := "[DGT OUT] compress_out failed → not enough carbon\n" }
          : Proc Ecosystem).stderr
        = (fn 4096 (boot 5 0)).2.stderr
          ++ ("[DGT OUT] " ++ ("compress" ++ "_out") ++ " failed → " ++ msg ++ "\n")) :=
  ⟨⟨by decide,
    (CALL_diagnostic_text bindings "compress" 4096 (some "not enough carbon") (boot 5 0)
      EXIT_FAILURE
      { boot 5 0 with stderr := "[DGT IN] compress_in failed → not enough carbon\n" }).1
      (by decide)⟩,
   ⟨by decide,
    (CALL_diagnostic_text [DGT_OUT_BIND "compress" compress_ecosystem] "compress" 4096
      (some "not enough carbon") (boot 5 0) EXIT_FAILURE
      { boot 5 0 with stderr := "[DGT OUT] compress_out failed → not enough carbon\n" }).2
      (by decide)⟩⟩

/-- C7: the wrapper `compress_in` declared by `DGT_IN_BIND(compress, compress_ecosystem)`
returns what `compress_ecosystem` returns and leaves the process it leaves, and
likewise `oxygen_out` and `release_oxygen`; `compress_in` and `oxygen_out` resolve
to these wrappers, so `DGT_IN_CALL(compress, ...)` is `DGT_INVOKE` on
`compress_ecosystem` and `DGT_OUT_CALL(oxygen, ...)` is `DGT_INVOKE` on
`release_oxygen`. -/
theorem dispatch_correct :
    (∀ (s : Ptr) (p : Proc Ecosystem),
      (DGT_IN_BIND "compress" compress_ecosystem).body s p = compress_ecosystem s p) ∧
    (∀ (s : Ptr) (p : Proc Ecosystem),
      (DGT_OUT_BIND "oxygen" release_oxygen).body s p = release_oxygen s p) ∧
    (DGT_IN_BIND "compress" compress_ecosystem).ident = "compress_in" ∧
    (DGT_OUT_BIND "oxygen" release_oxygen).ident = "oxygen_out" ∧
    resolve bindings "compress_in" = some (DGT_IN_BIND "compress" compress_ecosystem).body ∧
    resolve bindings "oxygen_out" = some (DGT_OUT_BIND "oxygen" release_oxygen).body ∧
    (∀ (state : Ptr) (on_err : Option String) (p : Proc Ecosystem),
      DGT_IN_CALL bindings "compress" state on_err p
        = some (DGT_INVOKE __DGT_IN__ "compress_in" compress_ecosystem state on_err p)) ∧
    (∀ (state : Ptr) (on_err : Option String) (p : Proc Ecosystem),
      DGT_OUT_CALL bindings "oxygen" state on_err p
        = some (DGT_INVOKE __DGT_OUT__ "oxygen_out" release_oxygen state on_err p)) :=
  ⟨fun _ _ => rfl, fun _ _ => rfl, rfl, rfl, rfl, rfl, IN_CALL_compress, OUT_CALL_oxygen⟩

/-! ## The demo pipeline -/

theorem pipeline_failure (world : Ptr) (p : Proc Ecosystem) (h : p.mem.carbon.val < 10) :
    pipeline world p = some (Outcome.exited EXIT_FAILURE
      { p with stderr := p.stderr
          ++ "[DGT IN] compress_in failed → compression step failed – not enough carbon\n" }) := by
  unfold pipeline
  rw [IN_CALL_compress, invoke_exits_of_null _ _ _ _ _ _
    (by rw [compress_null_of_lt world p h]), compress_null_of_lt world p h,
    diagnostic_in]
  rfl

theorem pipeline_success (world : Ptr) (p : Proc Ecosystem) (hw : world ≠ NULL)
    (h : 10 ≤ p.mem.carbon.val) :
    pipeline world p
      = some (Outcome.next world (release_oxygen world (compress_ecosystem world p).2).2) := by
  have h1 : (compress_ecosystem world p).1 = world := by
    simp [compress_ecosystem, h]
  unfold pipeline
  rw [IN_CALL_compress, invoke_next_of_ne _ _ _ _ _ _ (by rw [h1]; exact hw), h1]
  simp only []
  rw [OUT_CALL_oxygen, invoke_next_of_ne _ _ _ _ _ _ (by exact hw)]
  rfl

/-- C8: for every initial state with `carbon < 10`, the pipeline of `main`
terminates with `EXIT_FAILURE` at the compress step; `stderr` receives the
IN-tagged diagnostic with the message of that step, and nothing else changes:
carbon, oxygen and name hold their initial values and `stdout` has no line of
`release_oxygen` (only the banner, in `main`). -/
theorem pipeline_fail_fast (world : Ptr) (p : Proc Ecosystem) (h : p.mem.carbon.val < 10) :
    pipeline world p = some (Outcome.exited EXIT_FAILURE
      { mem := p.mem, stdout := p.stdout,
        stderr := p.stderr
          ++ "[DGT IN] compress_in failed → compression step failed – not enough carbon\n" }) ∧
    main_body world p = some (Outcome.exited EXIT_FAILURE
      { mem := p.mem, stdout := p.stdout ++ "=== Di-RAM Directed Semantic Demo ===\n",
        stderr := p.stderr
          ++ "[DGT IN] compress_in failed → compression step failed – not enough carbon\n" }) := by
  constructor
  · exact pipeline_failure world p h
  · unfold main_body
    simp only []
    rw [pipeline_failure world
      { p with stdout := p.stdout ++ "=== Di-RAM Directed Semantic Demo ===\n" } h]

/-- Witness for C8 at the state `{carbon: 5, oxygen: 0}`. -/
theorem pipeline_fail_fast_witness :
    (boot 5 0).mem.carbon.val < 10 ∧
    (pipeline 4096 (boot 5 0) = some (Outcome.exited EXIT_FAILURE
      { mem := (boot 5 0).mem, stdout := (boot 5 0).stdout,
        stderr := (boot 5 0).stderr
          ++ "[DGT IN] compress_in failed → compression step failed – not enough carbon\n" }) ∧
    main_body 4096 (boot 5 0) = some (Outcome.exited EXIT_FAILURE
      { mem := (boot 5 0).mem,
        stdout := (boot 5 0).stdout ++ "=== Di-RAM Directed Semantic Demo ===\n",
        stderr := (boot 5 0).stderr
          ++ "[DGT IN] compress_in failed → compression step failed – not enough carbon\n" })) :=
  ⟨by decide, pipeline_fail_fast 4096 (boot 5 0) (by decide)⟩

theorem main_body_success (world : Ptr) (p : Proc Ecosystem) (hw : world ≠ NULL)
    (h : 10 ≤ p.mem.carbon.val) :
    main_body world p = some (Outcome.exited 0
      { (release_oxygen world (compress_ecosystem world
            { p with stdout := p.stdout ++ "=== Di-RAM Directed Semantic Demo ===\n" }).2).2 with
        stdout := (release_oxygen world (compress_ecosystem world
            { p with stdout := p.stdout ++ "=== Di-RAM Directed Semantic Demo ===\n" }).2).2.stdout
          ++ ("Final state: " ++ p.mem.name ++ " | C:"
            ++ (CInt.sub p.mem.carbon (CInt.wrap 10)).fmt ++ " O:"
            ++ (CInt.add p.mem.oxygen (CInt.wrap 5)).fmt ++ "\n") }) := by
  unfold main_body
  simp only []
  rw [pipeline_success world
    { p with stdout := p.stdout ++ "=== Di-RAM Directed Semantic Demo ===\n" } hw h]
  simp [compress_ecosystem, release_oxygen, h]

/-- C4, as stated, fails in its general part: from `{carbon: 10, oxygen: INT_MAX}`
the pipeline completes, but the `int` field oxygen cannot hold `oxygen + 5`; it
holds `INT_MAX + 5 - 2^32`. -/
theorem pipeline_oxygen_overflow :
    10 ≤ (boot 10 2147483647).mem.carbon.val ∧
    pipeline 4096 (boot 10 2147483647) = some (Outcome.next 4096
      { mem := { name := "Earth-v1", carbon := CInt.wrap 0,
                 oxygen := CInt.wrap (-2147483644) },
        stdout := "[IN]  compress: carbon 10 → 0\n[OUT] release: oxygen → -2147483644\n",
        stderr := "" }) ∧
    (CInt.wrap (-2147483644)).val ≠ (boot 10 2147483647).mem.oxygen.val + 5 := by
  decide

/-- C4, amended: `main`, with a non-null `world`, runs both steps without taking
the abort path and exits with status 0 in the state `{carbon: 40, oxygen: 5}`,
name unchanged; and from every initial state with `carbon >= 10` and
`oxygen <= INT_MAX - 5` the pipeline completes (nothing written to `stderr`, the
handle unchanged) and yields `carbon - 10` and `oxygen + 5`, name unchanged. -/
theorem pipeline_demo (world : Ptr) (hw : world ≠ NULL) :
    main world = some (Outcome.exited 0
      { mem := { name := "Earth-v1", carbon := CInt.wrap 40, oxygen := CInt.wrap 5 },
        stdout := "=== Di-RAM Directed Semantic Demo ===\n[IN]  compress: carbon 50 → 40\n"
          ++ "[OUT] release: oxygen → 5\nFinal state: Earth-v1 | C:40 O:5\n",
        stderr := "" }) ∧
    ∀ p : Proc Ecosystem, 10 ≤ p.mem.carbon.val → p.mem.oxygen.val ≤ INT_MAX - 5 →
      pipeline world p
        = some (Outcome.next world (release_oxygen world (compress_ecosystem world p).2).2) ∧
      (release_oxygen world (compress_ecosystem world p).2).2.mem.carbon.val
        = p.mem.carbon.val - 10 ∧
      (release_oxygen world (compress_ecosystem world p).2).2.mem.oxygen.val
        = p.mem.oxygen.val + 5 ∧
      (release_oxygen world (compress_ecosystem world p).2).2.mem.name = p.mem.name ∧
      (release_oxygen world (compress_ecosystem world p).2).2.stderr = p.stderr := by
  constructor
  · unfold main
    rw [main_body_success world _ hw (by decide)]
    rfl
  · intro p hc ho
    simp only [INT_MAX] at ho
    refine ⟨pipeline_success world p hw hc, ?_, ?_, ?_, ?_⟩
    · simp only [compress_ecosystem, release_oxygen, hc, if_true]
      exact CInt.sub_ten_val _ hc
    · simp only [compress_ecosystem, release_oxygen, hc, if_true]
      exact CInt.add_five_val _ (by omega)
    · simp [compress_ecosystem, release_oxygen, hc]
    · simp [compress_ecosystem, release_oxygen, hc]

/-- Witness for C4 (amended) at the handle `4096` and the state `{carbon: 50, oxygen: 0}`. -/
theorem pipeline_demo_witness :
    (4096 : Ptr) ≠ NULL ∧ 10 ≤ (boot 50 0).mem.carbon.val ∧
    (boot 50 0).mem.oxygen.val ≤ INT_MAX - 5 ∧
    main 4096 = some (Outcome.exited 0
      { mem := { name := "Earth-v1", carbon := CInt.wrap 40, oxygen := CInt.wrap 5 },
        stdout := "=== Di-RAM Directed Semantic Demo ===\n[IN]  compress: carbon 50 → 40\n"
          ++ "[OUT] release: oxygen → 5\nFinal state: Earth-v1 | C:40 O:5\n",
        stderr := "" }) ∧
    (pipeline 4096 (boot 50 0)
        = some (Outcome.next 4096
            (release_oxygen 4096 (compress_ecosystem 4096 (boot 50 0)).2).2) ∧
      (release_oxygen 4096 (compress_ecosystem 4096 (boot 50 0)).2).2.mem.carbon.val
        = (boot 50 0).mem.carbon.val - 10 ∧
      (release_oxygen 4096 (compress_ecosystem 4096 (boot 50 0)).2).2.mem.oxygen.val
        = (boot 50 0).mem.oxygen.val + 5 ∧
      (release_oxygen 4096 (compress_ecosystem 4096 (boot 50 0)).2).2.mem.name
        = (boot 50 0).mem.name ∧
      (release_oxygen 4096 (compress_ecosystem 4096 (boot 50 0)).2).2.stderr
        = (boot 50 0).stderr) :=
  ⟨by decide, by decide, by decide, (pipeline_demo 4096 (by decide)).1,
   (pipeline_demo 4096 (by decide)).2 (boot 50 0) (by decide) (by decide)⟩

/-! ## The carbon counter -/

theorem after_call_carbon_nonneg (s : Ptr) (p : Proc Ecosystem) (c : Call)
    (h : 0 ≤ p.mem.carbon.val) : 0 ≤ (after_call s p c).mem.carbon.val := by
  cases c with
  | compress =>
    by_cases hc : 10 ≤ p.mem.carbon.val
    · have h1 : (compress_ecosystem s p).2.mem.carbon.val = p.mem.carbon.val - 10 := by
        simp only [compress_ecosystem, hc, if_true]
        exact CInt.sub_ten_val _ hc
      simp only [after_call]
      omega
    · simp only [after_call, compress_null_of_lt s p (by omega)]
      exact h
  | release => exact h

theorem after_calls_carbon_nonneg (s : Ptr) (cs : List Call) :
    ∀ p : Proc Ecosystem, 0 ≤ p.mem.carbon.val → 0 ≤ (after_calls s p cs).mem.carbon.val := by
  induction cs with
  | nil => intro p h; exact h
  | cons c cs ih =>
    intro p h
    exact ih _ (after_call_carbon_nonneg s p c h)

theorem compress_until_failure_spec (s : Ptr) (hs : s ≠ NULL) (fuel : Nat) :
    ∀ p : Proc Ecosystem, 0 ≤ p.mem.carbon.val → p.mem.carbon.val / 10 < (fuel : Int) →
      ((compress_until_failure s fuel p).1 : Int) = p.mem.carbon.val / 10 ∧
      (compress_until_failure s fuel p).2.2 = true ∧
      (compress_until_failure s fuel p).2.1.mem.carbon.val = p.mem.carbon.val % 10 := by
  induction fuel with
  | zero => intro p h0 hf; omega
  | succ fuel ih =>
    intro p h0 hf
    by_cases hc : 10 ≤ p.mem.carbon.val
    · have h1 : (compress_ecosystem s p).1 = s := by simp [compress_ecosystem, hc]
      have h2 : (compress_ecosystem s p).2.mem.carbon.val = p.mem.carbon.val - 10 := by
        simp only [compress_ecosystem, hc, if_true]
        exact CInt.sub_ten_val _ hc
      have h3 := ih (compress_ecosystem s p).2 (by omega) (by omega)
      simp only [compress_until_failure, h1, hs, if_false]
      rw [h2] at h3
      refine ⟨?_, h3.2.1, ?_⟩
      · push_cast
        omega
      · omega
    · have h1 := compress_null_of_lt s p (by omega)
      simp only [compress_until_failure, h1, if_true]
      refine ⟨?_, trivial, ?_⟩
      · push_cast
        omega
      · omega

/-- C10: starting from `carbon >= 0`, after every call of any finite sequence of
calls to `compress_ecosystem` and `release_oxygen` carbon is still `>= 0`; and
repeated calls to `compress_ecosystem` on a state handle (non-null), given room
for more than `c / 10` calls, succeed exactly `c / 10` times, then fail, leaving
`carbon = c mod 10`. -/
theorem carbon_counter (s : Ptr) (p : Proc Ecosystem) (h0 : 0 ≤ p.mem.carbon.val) :
    (∀ (cs : List Call) (n : Nat), 0 ≤ (after_calls s p (cs.take n)).mem.carbon.val) ∧
    (s ≠ NULL → ∀ fuel : Nat, p.mem.carbon.val / 10 < (fuel : Int) →
      ((compress_until_failure s fuel p).1 : Int) = p.mem.carbon.val / 10 ∧
      (compress_until_failure s fuel p).2.2 = true ∧
      (compress_until_failure s fuel p).2.1.mem.carbon.val = p.mem.carbon.val % 10) :=
  ⟨fun cs n => after_calls_carbon_nonneg s (cs.take n) p h0,
   fun hs fuel hf => compress_until_failure_spec s hs fuel p h0 hf⟩

/-- Witness for C10 at the handle `4096` and `carbon = 57`: five calls succeed,
the sixth fails, and 7 is left. -/
theorem carbon_counter_witness :
    0 ≤ (boot 57 0).mem.carbon.val ∧ (4096 : Ptr) ≠ NULL ∧
    (boot 57 0).mem.carbon.val / 10 < ((6 : Nat) : Int) ∧
    0 ≤ (after_calls 4096 (boot 57 0)
      ([Call.compress, Call.release, Call.compress].take 2)).mem.carbon.val ∧
    (((compress_until_failure 4096 6 (boot 57 0)).1 : Int) = (boot 57 0).mem.carbon.val / 10 ∧
      (compress_until_failure 4096 6 (boot 57 0)).2.2 = true ∧
      (compress_until_failure 4096 6 (boot 57 0)).2.1.mem.carbon.val
        = (boot 57 0).mem.carbon.val % 10) :=
  ⟨by decide, by decide, by decide,
   (carbon_counter 4096 (boot 57 0) (by decide)).1
     [Call.compress, Call.release, Call.compress] 2,
   (carbon_counter 4096 (boot 57 0) (by decide)).2 (by decide) 6 (by decide)⟩

end DGT
